import Mathlib

/-!
Shallow embedding of `src/app/src/JSON/Action.cpp` (Serial Studio).

Strings (`QString`) are modelled as `List Char`; byte arrays (`QByteArray`)
as `List Nat` with each element `< 256`; JSON values (`QJsonValue` routed
through `QVariant` by `SAFE_READ`) as the inductive `JValue`; a
`QJsonObject` as an association list `JObject` with first-match lookup.
Helper functions that live outside the provided source file
(`SerialStudio::hexToBytes`, `SerialStudio::resolveEscapeSequences`,
`QString::simplified`, the `TimerMode` enum from the header, and the
`QVariant` conversions) are modelled from the spec, as marked on each.
-/

/-- Modelled from the spec / Qt semantics: the ASCII whitespace characters
that `QString::simplified` removes or collapses. -/
def isQtSpace (c : Char) : Bool :=
  c = ' ' || c = '\t' || c = '\n' || c = Char.ofNat 11 || c = Char.ofNat 12 || c = '\r'

/-- Maximal runs of non-whitespace characters of a string, in order. -/
def qwords (s : List Char) : List (List Char) :=
  (s.foldr
    (fun c acc =>
      if isQtSpace c then [] :: acc
      else
        match acc with
        | w :: ws => (c :: w) :: ws
        | [] => [[c]])
    []).filter (fun w => decide (w ≠ []))

/-- Modelled from the spec: `QString::simplified` — strips leading and
trailing whitespace and collapses every internal whitespace run into one
space. -/
def simplified (s : List Char) : List Char :=
  List.intercalate [' '] (qwords s)

/-- UTF-8 encoding of a single Unicode scalar value. -/
def utf8Char (n : Nat) : List Nat :=
  if n < 128 then [n]
  else if n < 2048 then [192 + n / 64, 128 + n % 64]
  else if n < 65536 then [224 + n / 4096, 128 + n / 64 % 64, 128 + n % 64]
  else [240 + n / 262144, 128 + n / 4096 % 64, 128 + n / 64 % 64, 128 + n % 64]

/-- Modelled from Qt semantics: `QString::toUtf8`. -/
def utf8 (s : List Char) : List Nat :=
  (s.map (fun c => utf8Char c.toNat)).flatten

/-- A JSON leaf value, as handled by `SAFE_READ` via `QVariant`. -/
inductive JValue where
  | jnull : JValue
  | jbool : Bool → JValue
  | jint : Int → JValue
  | jstring : List Char → JValue
deriving DecidableEq, Repr

/-- A `QJsonObject`: an association list from keys to values. -/
abbrev JObject := List (String × JValue)

/-- Whether the object has a value for the given key
(`QJsonObject::contains`). -/
def JObject.contains (o : JObject) (k : String) : Bool :=
  (o.find? (fun p => p.fst == k)).isSome

/-- The value stored for the given key (`QJsonObject::value`); missing keys
yield the JSON null/undefined value, though `SAFE_READ` never exposes
that case. -/
def JObject.value (o : JObject) (k : String) : JValue :=
  match o.find? (fun p => p.fst == k) with
  | some p => p.snd
  | none => JValue.jnull

/-- Lower-cases an ASCII letter, as used by `QVariant::toBool` on strings. -/
def asciiLower (c : Char) : Char :=
  if 'A' ≤ c ∧ c ≤ 'Z' then Char.ofNat (c.toNat + 32) else c

/-- Parses a non-empty all-digit run as a natural number. -/
def decDigits (s : List Char) : Option Nat :=
  match s with
  | [] => none
  | _ =>
    s.foldl
      (fun acc c =>
        match acc with
        | none => none
        | some n => if c.isDigit then some (n * 10 + (c.toNat - 48)) else none)
      (some 0)

/-- Modelled from Qt semantics: `QString::toInt`, returning 0 on failure. -/
def stringToInt (s : List Char) : Int :=
  match s with
  | '-' :: rest =>
    match decDigits rest with
    | some n => -(n : Int)
    | none => 0
  | _ =>
    match decDigits s with
    | some n => (n : Int)
    | none => 0

/-- Modelled from Qt semantics: `QVariant::toString`. -/
def JValue.toQString : JValue → List Char
  | JValue.jnull => []
  | JValue.jbool b => if b then "true".data else "false".data
  | JValue.jint n => (toString n).data
  | JValue.jstring s => s

/-- Modelled from Qt semantics: `QVariant::toBool` — a string converts to
true unless it is empty, "0" or "false" (case-insensitively). -/
def JValue.toQBool : JValue → Bool
  | JValue.jnull => false
  | JValue.jbool b => b
  | JValue.jint n => decide (n ≠ 0)
  | JValue.jstring s =>
    let t := s.map asciiLower
    if t = [] ∨ t = ['0'] ∨ t = "false".data then false else true

/-- Modelled from Qt semantics: `QVariant::toInt`. -/
def JValue.toQInt : JValue → Int
  | JValue.jnull => 0
  | JValue.jbool b => if b then 1 else 0
  | JValue.jint n => n
  | JValue.jstring s => stringToInt s

/-- The static helper of `Action.cpp`: return the value stored at `key`
when the object contains it, and `defaultValue` otherwise. -/
def SAFE_READ (object : JObject) (key : String) (defaultValue : JValue) : JValue :=
  if object.contains key then object.value key else defaultValue

namespace SerialStudio

/-- Whether a character is a hexadecimal digit. -/
def isHexDigitC (c : Char) : Bool :=
  c.isDigit || ('a' ≤ c && c ≤ 'f') || ('A' ≤ c && c ≤ 'F')

/-- Numeric value of a hexadecimal digit (0 on non-digits; only applied to
digits). -/
def hexDigitVal (c : Char) : Nat :=
  if c.isDigit then c.toNat - 48
  else if 'a' ≤ c && c ≤ 'f' then c.toNat - 87
  else if 'A' ≤ c && c ≤ 'F' then c.toNat - 55
  else 0

/-- Decodes one pair of hexadecimal digits into a byte; `none` when either
character is not a hexadecimal digit. -/
def decodeHexPair (c1 c2 : Char) : Option Nat :=
  if isHexDigitC c1 && isHexDigitC c2 then
    some (16 * hexDigitVal c1 + hexDigitVal c2)
  else none

/-- Walks a character list two at a time, keeping the bytes of well-formed
pairs and dropping malformed pairs; a trailing lone character is dropped. -/
def hexPairs : List Char → List Nat
  | c1 :: c2 :: rest =>
    match decodeHexPair c1 c2 with
    | some b => b :: hexPairs rest
    | none => hexPairs rest
  | _ => []

/-- Modelled from the spec: `SerialStudio::hexToBytes` — interpret the
string as hexadecimal byte pairs, whitespace ignored, case-insensitive,
malformed pairs dropped rather than raising an error. -/
def hexToBytes (s : List Char) : List Nat :=
  hexPairs (s.filter (fun c => !isQtSpace c))

/-- Modelled from the spec: `SerialStudio::resolveEscapeSequences` —
substitutes the backslash escape tokens of the spec with the bytes they
denote; everything else passes through unchanged. -/
def resolveEscapeSequences : List Char → List Char
  | '\\' :: 'n' :: rest => '\n' :: resolveEscapeSequences rest
  | '\\' :: 'r' :: rest => '\r' :: resolveEscapeSequences rest
  | '\\' :: 't' :: rest => '\t' :: resolveEscapeSequences rest
  | '\\' :: '\\' :: rest => '\\' :: resolveEscapeSequences rest
  | c :: rest => c :: resolveEscapeSequences rest
  | [] => []

end SerialStudio

namespace JSON

/-- Modelled from the spec: the `TimerMode` enum of `JSON/Action.h`, kept
as its underlying integer representation so that the unchecked
`static_cast` in `Action::read` can be expressed faithfully. -/
structure TimerMode where
  rep : Int
deriving DecidableEq, Repr

/-- The timer is never started. -/
def TimerMode.Off : TimerMode := ⟨0⟩

/-- The timer starts automatically. -/
def TimerMode.AutoStart : TimerMode := ⟨1⟩

/-- The timer starts on the first manual trigger. -/
def TimerMode.StartOnTrigger : TimerMode := ⟨2⟩

/-- Each manual trigger toggles the timer. -/
def TimerMode.ToggleOnTrigger : TimerMode := ⟨3⟩

/-- The state of a `JSON::Action`, one field per C++ member. -/
structure Action where
  m_actionId : Int
  m_binaryData : Bool
  m_icon : List Char
  m_title : List Char
  m_txData : List Char
  m_eolSequence : List Char
  m_timerIntervalMs : Int
  m_timerMode : TimerMode
  m_autoExecuteOnConnect : Bool
deriving DecidableEq, Repr

/-- The constructor `JSON::Action::Action(const int actionId)`. -/
def Action.construct (actionId : Int) : Action :=
  Action.mk actionId false "Play Property".data [] [] [] 100 TimerMode.Off false

/-- Accessor `JSON::Action::actionId`. -/
def Action.actionId (a : Action) : Int := a.m_actionId

/-- Accessor `JSON::Action::binaryData`. -/
def Action.binaryData (a : Action) : Bool := a.m_binaryData

/-- Accessor `JSON::Action::icon`. -/
def Action.icon (a : Action) : List Char := a.m_icon

/-- Accessor `JSON::Action::title`. -/
def Action.title (a : Action) : List Char := a.m_title

/-- Accessor `JSON::Action::txData`. -/
def Action.txData (a : Action) : List Char := a.m_txData

/-- Accessor `JSON::Action::eolSequence`. -/
def Action.eolSequence (a : Action) : List Char := a.m_eolSequence

/-- Accessor `JSON::Action::timerMode`. -/
def Action.timerMode (a : Action) : TimerMode := a.m_timerMode

/-- Accessor `JSON::Action::timerIntervalMs`. -/
def Action.timerIntervalMs (a : Action) : Int := a.m_timerIntervalMs

/-- Accessor `JSON::Action::autoExecuteOnConnect`. -/
def Action.autoExecuteOnConnect (a : Action) : Bool := a.m_autoExecuteOnConnect

/-- `JSON::Action::txByteArray`: hex-decode `txData` in binary mode, else
resolve its escape sequences and encode as UTF-8; append the escape-resolved
UTF-8 EOL sequence whenever `eolSequence` is non-empty. -/
def Action.txByteArray (a : Action) : List Nat :=
  let bin :=
    if a.binaryData then SerialStudio.hexToBytes a.txData
    else utf8 (SerialStudio.resolveEscapeSequences a.txData)
  if a.eolSequence.isEmpty then bin
  else bin ++ utf8 (SerialStudio.resolveEscapeSequences a.eolSequence)

/-- `JSON::Action::serialize`: build the object with the eight keys, the
title whitespace-simplified and the timer mode as its underlying integer. -/
def Action.serialize (a : Action) : JObject :=
  [("icon", JValue.jstring a.m_icon),
   ("txData", JValue.jstring a.m_txData),
   ("eol", JValue.jstring a.m_eolSequence),
   ("binary", JValue.jbool a.m_binaryData),
   ("title", JValue.jstring (simplified a.m_title)),
   ("timerIntervalMs", JValue.jint a.m_timerIntervalMs),
   ("timerMode", JValue.jint a.m_timerMode.rep),
   ("autoExecuteOnConnect", JValue.jbool a.m_autoExecuteOnConnect)]

/-- `JSON::Action::read`: fail on an empty object, otherwise hydrate every
field from the object with the documented defaults for missing keys. -/
def Action.read (a : Action) (object : JObject) : Bool × Action :=
  if object.isEmpty then (false, a)
  else
    (true,
     Action.mk
       a.m_actionId
       (SAFE_READ object "binary" (JValue.jbool false)).toQBool
       (simplified (SAFE_READ object "icon" (JValue.jstring [])).toQString)
       (simplified (SAFE_READ object "title" (JValue.jstring [])).toQString)
       (SAFE_READ object "txData" (JValue.jstring [])).toQString
       (SAFE_READ object "eol" (JValue.jstring [])).toQString
       (SAFE_READ object "timerIntervalMs" (JValue.jint 100)).toQInt
       (TimerMode.mk (SAFE_READ object "timerMode" (JValue.jint TimerMode.Off.rep)).toQInt)
       (SAFE_READ object "autoExecuteOnConnect" (JValue.jbool false)).toQBool)

end JSON

namespace JSON

/-- Keys absent from an object make `SAFE_READ` return its default. -/
theorem SAFE_READ_of_not_key (o : JObject) (k : String) (d : JValue)
    (h : ∀ p ∈ o, p.fst ≠ k) : SAFE_READ o k d = d := by
  have hfind : o.find? (fun p => p.fst == k) = none := by
    apply List.find?_eq_none.mpr
    intro p hp
    simpa using h p hp
  simp [SAFE_READ, JObject.contains, hfind]

/-- Claim C1: for every Action whose icon and title are already
whitespace-simplified, reading back its serialization into a freshly
constructed Action with the same constructor id returns true and restores
every field (actionId is not serialized but matches by construction). -/
theorem serialize_read_round_trip (a : Action)
    (hicon : simplified a.icon = a.icon)
    (htitle : simplified a.title = a.title) :
    Action.read (Action.construct a.actionId) (Action.serialize a) = (true, a) := by
  show (true,
      Action.mk a.m_actionId a.m_binaryData (simplified a.m_icon)
        (simplified (simplified a.m_title)) a.m_txData a.m_eolSequence
        a.m_timerIntervalMs (TimerMode.mk a.m_timerMode.rep)
        a.m_autoExecuteOnConnect) = (true, a)
  rw [show simplified a.m_icon = a.m_icon from hicon,
    show simplified a.m_title = a.m_title from htitle,
    show simplified a.m_title = a.m_title from htitle]

/-- Claim C1 witness: a concrete already-simplified Action round-trips. -/
theorem serialize_read_round_trip_witness :
    simplified "Play Property".data = "Play Property".data
    ∧ simplified "Hello World".data = "Hello World".data
    ∧ Action.read (Action.construct 5)
        (Action.serialize (Action.mk 5 true "Play Property".data
          "Hello World".data "41 42".data "\\r\\n".data 250 (TimerMode.mk 2) true))
      = (true, Action.mk 5 true "Play Property".data "Hello World".data
          "41 42".data "\\r\\n".data 250 (TimerMode.mk 2) true) :=
  ⟨by decide, by decide,
    serialize_read_round_trip
      (Action.mk 5 true "Play Property".data "Hello World".data "41 42".data
        "\\r\\n".data 250 (TimerMode.mk 2) true) (by decide) (by decide)⟩

/-- Claim C2: `txByteArray` is the hex decode of `txData` in binary mode,
otherwise the UTF-8 encoding of escape-resolved `txData`, with the UTF-8
encoding of the escape-resolved EOL sequence appended exactly when
`eolSequence` is non-empty. -/
theorem txByteArray_composition (a : Action) :
    a.txByteArray =
      (if a.binaryData then SerialStudio.hexToBytes a.txData
       else utf8 (SerialStudio.resolveEscapeSequences a.txData))
      ++ (if a.eolSequence = [] then []
          else utf8 (SerialStudio.resolveEscapeSequences a.eolSequence)) := by
  unfold Action.txByteArray
  rcases h : a.eolSequence with _ | ⟨c, t⟩ <;> simp [h]

/-- Claim C3: `read` returns false exactly on the object with zero keys;
every non-empty object yields true. -/
theorem read_false_iff_empty_object (a : Action) (object : JObject) :
    (Action.read a object).fst = false ↔ object = [] := by
  cases object <;> simp [Action.read]

end JSON

namespace JSON

/-- Claim C4: a non-empty object containing none of the eight expected keys
hydrates every field to its documented default: empty strings, binary off,
interval 100, timer mode Off, auto-execute off; actionId is untouched. -/
theorem read_default_fill (a : Action) (object : JObject) (hne : object ≠ [])
    (hkeys : ∀ p ∈ object, p.fst ∉ (["eol", "txData", "binary",
      "timerIntervalMs", "icon", "title", "autoExecuteOnConnect",
      "timerMode"] : List String)) :
    Action.read a object =
      (true, Action.mk a.m_actionId false [] [] [] [] 100 TimerMode.Off false) := by
  have hk : ∀ k : String, k ∈ (["eol", "txData", "binary", "timerIntervalMs",
      "icon", "title", "autoExecuteOnConnect", "timerMode"] : List String) →
      ∀ p ∈ object, p.fst ≠ k := by
    intro k hkmem p hp heq
    exact hkeys p hp (heq ▸ hkmem)
  have hempty : object.isEmpty = false := by
    cases object with
    | nil => exact absurd rfl hne
    | cons p t => rfl
  unfold Action.read
  rw [hempty,
    SAFE_READ_of_not_key object "binary" _ (hk "binary" (by simp)),
    SAFE_READ_of_not_key object "icon" _ (hk "icon" (by simp)),
    SAFE_READ_of_not_key object "title" _ (hk "title" (by simp)),
    SAFE_READ_of_not_key object "txData" _ (hk "txData" (by simp)),
    SAFE_READ_of_not_key object "eol" _ (hk "eol" (by simp)),
    SAFE_READ_of_not_key object "timerIntervalMs" _ (hk "timerIntervalMs" (by simp)),
    SAFE_READ_of_not_key object "timerMode" _ (hk "timerMode" (by simp)),
    SAFE_READ_of_not_key object "autoExecuteOnConnect" _ (hk "autoExecuteOnConnect" (by simp))]
  rfl

/-- Claim C4 witness: reading an object with only an unexpected key yields
every default. -/
theorem read_default_fill_witness :
    (([("unused", JValue.jint 1)] : JObject) ≠ []
      ∧ ∀ p ∈ ([("unused", JValue.jint 1)] : JObject),
          p.fst ∉ (["eol", "txData", "binary", "timerIntervalMs", "icon",
            "title", "autoExecuteOnConnect", "timerMode"] : List String))
    ∧ Action.read (Action.construct 7) [("unused", JValue.jint 1)] =
        (true, Action.mk 7 false [] [] [] [] 100 TimerMode.Off false) :=
  ⟨⟨by decide, by decide⟩,
    read_default_fill (Action.construct 7) [("unused", JValue.jint 1)]
      (by decide) (by decide)⟩

/-- Claim C5: reading a stored timer-mode integer never fails for any
integer, stores exactly the enum value with that underlying representation,
and an out-of-range integer yields a value distinct from every named
variant. -/
theorem read_timer_mode_unchecked (a : Action) (i : Int) :
    (Action.read a [("timerMode", JValue.jint i)]).fst = true
    ∧ (Action.read a [("timerMode", JValue.jint i)]).snd.timerMode = TimerMode.mk i
    ∧ ((i < 0 ∨ 3 < i) →
        TimerMode.mk i ≠ TimerMode.Off ∧ TimerMode.mk i ≠ TimerMode.AutoStart
        ∧ TimerMode.mk i ≠ TimerMode.StartOnTrigger
        ∧ TimerMode.mk i ≠ TimerMode.ToggleOnTrigger) := by
  refine ⟨rfl, rfl, fun h => ?_⟩
  simp only [TimerMode.Off, TimerMode.AutoStart, TimerMode.StartOnTrigger,
    TimerMode.ToggleOnTrigger, ne_eq, TimerMode.mk.injEq]
  omega

/-- Claim C5 witness: the stored integer 7 is decoded without failure into
a timer mode equal to none of the four named variants. -/
theorem read_timer_mode_unchecked_witness :
    ((7 : Int) < 0 ∨ (3 : Int) < 7)
    ∧ (Action.read (Action.construct 0) [("timerMode", JValue.jint 7)]).fst = true
    ∧ (Action.read (Action.construct 0) [("timerMode", JValue.jint 7)]).snd.timerMode
        = TimerMode.mk 7
    ∧ (TimerMode.mk 7 ≠ TimerMode.Off ∧ TimerMode.mk 7 ≠ TimerMode.AutoStart
        ∧ TimerMode.mk 7 ≠ TimerMode.StartOnTrigger
        ∧ TimerMode.mk 7 ≠ TimerMode.ToggleOnTrigger) :=
  ⟨by decide,
    (read_timer_mode_unchecked (Action.construct 0) 7).1,
    (read_timer_mode_unchecked (Action.construct 0) 7).2.1,
    (read_timer_mode_unchecked (Action.construct 0) 7).2.2 (by decide)⟩

/-- Claim C6: serialization always succeeds, emits exactly the eight keys,
stores the title whitespace-simplified, stores the timer mode as its
underlying integer, and excludes actionId. -/
theorem serialize_key_set (a : Action) :
    (Action.serialize a).map Prod.fst =
      ["icon", "txData", "eol", "binary", "title", "timerIntervalMs",
        "timerMode", "autoExecuteOnConnect"]
    ∧ JObject.value (Action.serialize a) "title" = JValue.jstring (simplified a.title)
    ∧ JObject.value (Action.serialize a) "timerMode" = JValue.jint a.m_timerMode.rep
    ∧ "actionId" ∉ (Action.serialize a).map Prod.fst := by
  refine ⟨rfl, rfl, rfl, ?_⟩
  intro hmem
  rw [show (Action.serialize a).map Prod.fst = ["icon", "txData", "eol",
    "binary", "title", "timerIntervalMs", "timerMode",
    "autoExecuteOnConnect"] from rfl] at hmem
  simp at hmem

/-- Claim C7: a malformed hexadecimal pair contributes no bytes, and the
spec's example — binary mode with txData "4G" and no EOL — produces the
empty payload rather than an error. -/
theorem txByteArray_lossy_hex (c1 c2 : Char) (s : List Char) (a : Action)
    (hpair : SerialStudio.decodeHexPair c1 c2 = none)
    (hb : a.m_binaryData = true) (htx : a.m_txData = ['4', 'G'])
    (heol : a.m_eolSequence = []) :
    SerialStudio.hexPairs (c1 :: c2 :: s) = SerialStudio.hexPairs s
    ∧ a.txByteArray = [] := by
  constructor
  · simp [SerialStudio.hexPairs, hpair]
  · simp [Action.txByteArray, Action.binaryData, Action.txData,
      Action.eolSequence, hb, htx, heol, SerialStudio.hexToBytes]
    decide

/-- Claim C7 witness: the pair "4G" is malformed, drops out of the hex
walk, and the concrete binary Action with txData "4G" transmits nothing. -/
theorem txByteArray_lossy_hex_witness :
    SerialStudio.decodeHexPair '4' 'G' = none
    ∧ ((Action.mk 0 true [] [] ['4', 'G'] [] 100 TimerMode.Off false).m_binaryData = true
        ∧ (Action.mk 0 true [] [] ['4', 'G'] [] 100 TimerMode.Off false).m_txData = ['4', 'G']
        ∧ (Action.mk 0 true [] [] ['4', 'G'] [] 100 TimerMode.Off false).m_eolSequence = [])
    ∧ (SerialStudio.hexPairs ['4', 'G'] = SerialStudio.hexPairs []
        ∧ (Action.mk 0 true [] [] ['4', 'G'] [] 100 TimerMode.Off false).txByteArray = []) :=
  ⟨by decide, ⟨rfl, rfl, rfl⟩,
    txByteArray_lossy_hex '4' 'G' []
      (Action.mk 0 true [] [] ['4', 'G'] [] 100 TimerMode.Off false)
      (by decide) rfl rfl rfl⟩

/-- Claim C8: construction never fails and initializes every field as
documented: empty title/txData/eolSequence, the sentinel icon label,
binary off, interval 100, timer mode Off, auto-execute off, the given
actionId stored; actionId is read-only — the one mutating operation of the
file, read, never changes it. -/
theorem construct_defaults :
    ∀ actionId : Int,
      (Action.construct actionId).actionId = actionId
      ∧ (Action.construct actionId).binaryData = false
      ∧ (Action.construct actionId).icon = "Play Property".data
      ∧ (Action.construct actionId).title = []
      ∧ (Action.construct actionId).txData = []
      ∧ (Action.construct actionId).eolSequence = []
      ∧ (Action.construct actionId).timerIntervalMs = 100
      ∧ (Action.construct actionId).timerMode = TimerMode.Off
      ∧ (Action.construct actionId).autoExecuteOnConnect = false
      ∧ ∀ (a : Action) (object : JObject),
          ((a.read object).snd).actionId = a.actionId := by
  intro actionId
  refine ⟨rfl, rfl, rfl, rfl, rfl, rfl, rfl, rfl, rfl, fun a object => ?_⟩
  cases object <;> rfl

/-- Claim C9: the payload builder is deterministic and depends only on the
binaryData, txData and eolSequence fields: two Actions agreeing on those
three fields produce identical byte sequences (and, being a pure function
of the state, it mutates nothing). -/
theorem txByteArray_deterministic (a b : Action)
    (h1 : a.binaryData = b.binaryData) (h2 : a.txData = b.txData)
    (h3 : a.eolSequence = b.eolSequence) :
    a.txByteArray = b.txByteArray := by
  unfold Action.txByteArray
  rw [h1, h2, h3]

/-- Claim C9 witness: two Actions differing only in actionId agree on the
three payload fields and produce the same bytes. -/
theorem txByteArray_deterministic_witness :
    (Action.construct 1).binaryData = (Action.construct 2).binaryData
    ∧ (Action.construct 1).txData = (Action.construct 2).txData
    ∧ (Action.construct 1).eolSequence = (Action.construct 2).eolSequence
    ∧ (Action.construct 1).txByteArray = (Action.construct 2).txByteArray :=
  ⟨rfl, rfl, rfl,
    txByteArray_deterministic (Action.construct 1) (Action.construct 2) rfl rfl rfl⟩

/-- Claim C10: reading the empty object fails atomically: it returns false
and the Action keeps every field, actionId included — the result is
exactly the original state. -/
theorem read_empty_object_noop (a : Action) (object : JObject)
    (h : object = []) : Action.read a object = (false, a) := by
  subst h
  rfl

/-- Claim C10 witness: reading the empty object on a concrete Action is a
no-op returning false. -/
theorem read_empty_object_noop_witness :
    (([] : JObject) = [])
    ∧ Action.read (Action.construct 3) [] = (false, Action.construct 3) :=
  ⟨rfl, read_empty_object_noop (Action.construct 3) [] rfl⟩

end JSON
